import Mathlib

/-!
Verification of the podcast sync core of termusic.

The definitions below are a shallow embedding of the Rust sources:
  - `src/lib/src/podcast/db/mod.rs` (storage gateway: `Database::update_podcast`,
    `Database::update_episodes`, `Database::check_for_updates`,
    `Database::insert_episode`, `Database::get_episodes`, `Database::remove_files`)
  - `src/src/podcast/mod.rs` (feed client and parser helpers: `get_feed_data`,
    `duration_to_int`, `regex_to_int`, `RE_DURATION`)

Machine integers (`i64` database ids, timestamps, durations) are modelled as `Int`;
strings as `String`; SQL `NULL`-able columns as `Option`.  Stateful database code is
modelled as explicit state passing over a `StoreState` record of table rows.
-/

namespace Termusic

/-- Episode data as parsed from a feed, before insertion into the database.
Mirrors the `EpisodeNoId` struct; `pubdate` is kept as the Unix timestamp the code
obtains via `dt.timestamp()` (equality of `DateTime` values used by the matching code
is equality of these timestamps). `image_url` is written by `insert_episode`. -/
structure EpisodeNoId where
  title : String
  url : String
  guid : String
  description : String
  pubdate : Option Int
  duration : Option Int
  image_url : Option String
deriving DecidableEq

/-- A stored episode row of the `episodes` table (the fields of the `Episode` struct
that reconciliation reads, plus the playback/visibility columns `played`, `hidden`,
`last_position` that the frame claims are about).  The local-file association lives
in the separate `files` table (`FileRow`). -/
structure Episode where
  id : Int
  pod_id : Int
  title : String
  url : String
  guid : String
  description : String
  pubdate : Option Int
  duration : Option Int
  played : Bool
  hidden : Bool
  last_position : Int
  image_url : Option String
deriving DecidableEq

/-- Mirrors the `NewEpisode` struct returned for notification purposes. -/
structure NewEpisode where
  id : Int
  pod_id : Int
  title : String
  pod_title : String
  selected : Bool
deriving DecidableEq

/-- Mirrors the `SyncResult` struct: newly inserted episodes and ids of episodes
updated in place. -/
structure SyncResult where
  added : List NewEpisode
  updated : List Int
deriving DecidableEq

/-- A row of the `files` table: a local-file association for an episode. -/
structure FileRow where
  episode_id : Int
  path : String
deriving DecidableEq

/-- The mutable store the episode operations act on: the `episodes` rows, the
`files` rows, and the next rowid handed out by an insert (`last_insert_rowid`
is monotonically increasing for these append-only runs). -/
structure StoreState where
  episodes : List Episode
  files : List FileRow
  nextId : Int
deriving DecidableEq

/-- Mirrors `Database::check_for_updates`: `pd_match` starts `false` and becomes
`true` only when BOTH sides carry a publish date and the timestamps are equal;
the episode is flagged for update unless all six compared fields agree AND
`pd_match` holds. -/
def check_for_updates (old_ep : Episode) (new_ep : EpisodeNoId) : Bool :=
  let pd_match : Bool :=
    match new_ep.pubdate, old_ep.pubdate with
    | some pd, some old_pd => pd == old_pd
    | _, _ => false
  !(new_ep.title == old_ep.title
      && new_ep.url == old_ep.url
      && new_ep.guid == old_ep.guid
      && new_ep.description == old_ep.description
      && new_ep.duration == old_ep.duration
      && pd_match)

/-- The pubdate contribution to the fallback score: counted only when both sides
have a publish date (mirrors the nested `if let Some(pd) = new_pd { if let
Some(old_pd) = old_ep.pubdate { .. } }` in `update_episodes`). -/
def pd_score (old_ep : Episode) (new_ep : EpisodeNoId) : Nat :=
  match new_ep.pubdate with
  | none => 0
  | some pd =>
    match old_ep.pubdate with
    | none => 0
    | some old_pd => if pd = old_pd then 1 else 0

/-- The fallback `matching` counter of `update_episodes`: title equality plus url
equality plus the guarded pubdate equality. -/
def fallback_score (old_ep : Episode) (new_ep : EpisodeNoId) : Nat :=
  (if new_ep.title = old_ep.title then 1 else 0)
    + (if new_ep.url = old_ep.url then 1 else 0)
    + pd_score old_ep new_ep

/-- The fallback scan loop body: walk the given list, stop (`break`) at the first
episode whose score reaches 2. -/
def fallback_loop (new_ep : EpisodeNoId) : List Episode → Option Episode
  | [] => none
  | old_ep :: rest =>
    if 2 ≤ fallback_score old_ep new_ep then some old_ep
    else fallback_loop new_ep rest

/-- The fallback matching of `update_episodes`: the Rust loop is
`for old_ep in old_episodes.iter().rev()`, i.e. it scans the fetched
(publish-date-descending) list in REVERSE order. -/
def fallback_match (old_episodes : List Episode) (new_ep : EpisodeNoId) : Option Episode :=
  fallback_loop new_ep old_episodes.reverse

/-- One insertion step of building `old_ep_map`: episodes with an empty guid do not
participate; a later insert with the same guid overwrites an earlier one
(`AHashMap::insert` semantics). The accumulator is the map entry for guid `g`. -/
def guid_map_insert (g : String) (e : Episode) (acc : Option Episode) : Option Episode :=
  if e.guid = "" then acc
  else if e.guid = g then some e else acc

/-- Fold of `guid_map_insert` over the episode list in iteration order. -/
def guid_lookup_go (g : String) : List Episode → Option Episode → Option Episode
  | [], acc => acc
  | e :: rest, acc => guid_lookup_go g rest (guid_map_insert g e acc)

/-- Lookup of guid `g` in the `old_ep_map` built by `update_episodes` from
`old_episodes` (in iteration order, later inserts overwriting earlier ones). -/
def guid_lookup (old_episodes : List Episode) (g : String) : Option Episode :=
  guid_lookup_go g old_episodes none

/-- Outcome of matching one incoming episode: matched to a stored episode (with
the `update` flag computed by `check_for_updates`), or new. -/
inductive MatchResult where
  | matched (old_ep : Episode) (update : Bool)
  | new
deriving DecidableEq

/-- The per-episode matching of `update_episodes`: primary guid matching (only
for a non-empty incoming guid), then the fallback scan only when no guid hit
occurred (`existing_id.is_none()`). -/
def match_episode (old_episodes : List Episode) (new_ep : EpisodeNoId) : MatchResult :=
  match (if new_ep.guid = "" then none else guid_lookup old_episodes new_ep.guid) with
  | some old_ep => .matched old_ep (check_for_updates old_ep new_ep)
  | none =>
    match fallback_match old_episodes new_ep with
    | some old_ep => .matched old_ep (check_for_updates old_ep new_ep)
    | none => .new

/-- The `UPDATE episodes SET title = ?, url = ?, guid = ?, description = ?,
pubdate = ?, duration = ? WHERE id = ?` statement applied to one row: exactly
those six columns are rewritten. -/
def apply_update (new_ep : EpisodeNoId) (e : Episode) : Episode :=
  { e with
    title := new_ep.title
    url := new_ep.url
    guid := new_ep.guid
    description := new_ep.description
    pubdate := new_ep.pubdate
    duration := new_ep.duration }

/-- Mirrors `Database::insert_episode`: the new row carries the incoming metadata
and `played = false`, `hidden = false`, `last_position = 0`. -/
def new_row (podcast_id : Int) (rowid : Int) (new_ep : EpisodeNoId) : Episode :=
  { id := rowid
    pod_id := podcast_id
    title := new_ep.title
    url := new_ep.url
    guid := new_ep.guid
    description := new_ep.description
    pubdate := new_ep.pubdate
    duration := new_ep.duration
    played := false
    hidden := false
    last_position := 0
    image_url := new_ep.image_url }

/-- One iteration of the `for new_ep in episodes.iter().rev()` loop of
`update_episodes`: match against the pre-loop snapshot `old_episodes`; on a
match with `update` execute the six-column UPDATE and record the id; on no
match insert a fresh row and record a `NewEpisode`. -/
def update_one (podcast_id : Int) (podcast_title : String) (old_episodes : List Episode)
    (new_ep : EpisodeNoId) (st : StoreState) (acc : SyncResult) : StoreState × SyncResult :=
  match match_episode old_episodes new_ep with
  | .matched old_ep upd =>
    if upd then
      ({ st with
          episodes := st.episodes.map fun e =>
            if e.id == old_ep.id then apply_update new_ep e else e },
       { acc with updated := acc.updated ++ [old_ep.id] })
    else (st, acc)
  | .new =>
    ({ st with
        episodes := st.episodes ++ [new_row podcast_id st.nextId new_ep]
        nextId := st.nextId + 1 },
     { acc with
        added := acc.added ++
          [{ id := st.nextId
             pod_id := podcast_id
             title := new_ep.title
             pod_title := podcast_title
             selected := false }] })

/-- The whole episode loop, over the already-reversed incoming list. -/
def update_loop (podcast_id : Int) (podcast_title : String) (old_episodes : List Episode) :
    List EpisodeNoId → StoreState → SyncResult → StoreState × SyncResult
  | [], st, acc => (st, acc)
  | new_ep :: rest, st, acc =>
    let p := update_one podcast_id podcast_title old_episodes new_ep st acc
    update_loop podcast_id podcast_title old_episodes rest p.1 p.2

/-- Comparison used by `ORDER BY pubdate DESC` in SQLite: larger timestamps
first, `NULL` pubdates last. `pd_desc_le a b` says `a` may come before `b`. -/
def pd_desc_le (a b : Episode) : Bool :=
  match a.pubdate, b.pubdate with
  | some x, some y => y ≤ x
  | some _, none => true
  | none, some _ => false
  | none, none => true

/-- Stable insertion into a pubdate-descending list. -/
def insert_pd_desc (e : Episode) : List Episode → List Episode
  | [] => [e]
  | x :: xs => if pd_desc_le e x then e :: x :: xs else x :: insert_pd_desc e xs

/-- Stable sort by publish date descending (`NULL`s last), modelling the
`ORDER BY pubdate DESC` result order of `get_episodes`. -/
def sort_pd_desc : List Episode → List Episode
  | [] => []
  | x :: xs => insert_pd_desc x (sort_pd_desc xs)

/-- Mirrors `Database::get_episodes`: rows of the given podcast, optionally
filtered to non-hidden ones, ordered by publish date descending. -/
def get_episodes (st : StoreState) (pod_id : Int) (include_hidden : Bool) : List Episode :=
  sort_pd_desc (st.episodes.filter fun e =>
    e.pod_id == pod_id && (include_hidden || !e.hidden))

/-- Mirrors `Database::update_episodes`: snapshot the stored episodes (hidden ones
included), then process the incoming list in reverse, matching each episode
against the snapshot and inserting or updating accordingly.  Returns the store
after the transaction commit together with the `SyncResult`. -/
def update_episodes (st : StoreState) (podcast_id : Int) (podcast_title : String)
    (episodes : List EpisodeNoId) : StoreState × SyncResult :=
  let old_episodes := get_episodes st podcast_id true
  update_loop podcast_id podcast_title old_episodes episodes.reverse st
    { added := [], updated := [] }

/-- Podcast feed data before insertion; mirrors the `PodcastNoId` struct
(`last_checked` kept as a timestamp). -/
structure PodcastNoId where
  title : String
  url : String
  description : Option String
  author : Option String
  explicit : Option Bool
  last_checked : Int
  episodes : List EpisodeNoId
deriving DecidableEq

/-- The podcast metadata row of the `podcasts` table for one podcast. -/
structure PodcastMeta where
  title : String
  url : String
  description : Option String
  author : Option String
  explicit : Option Bool
  last_checked : Int
deriving DecidableEq

/-- Modelled from the spec: the body of `PodcastDBInsertable::update_podcast`
lives in `src/lib/src/podcast/db/podcast_db.rs`, which is not among the
provided sources; per the spec, `updatePodcast(id, podcast)` "updates podcast
metadata row", so the row takes the incoming podcast's metadata fields. -/
def update_podcast_meta (podcast : PodcastNoId) (m : PodcastMeta) : PodcastMeta :=
  { m with
    title := podcast.title
    url := podcast.url
    description := podcast.description
    author := podcast.author
    explicit := podcast.explicit
    last_checked := podcast.last_checked }

/-- Full observable database state for one podcast: its metadata row plus the
episode/file store. -/
structure DbFull where
  meta : PodcastMeta
  store : StoreState
deriving DecidableEq

/-- Mirrors `Database::update_podcast`, keeping its transaction structure
explicit: the metadata UPDATE runs on `self.conn` (auto-committed, OUTSIDE any
transaction), after which `update_episodes` opens a NEW connection and wraps
only the episode work in a transaction.  `episode_tx_ok = false` models a
failure inside that episode transaction: the transaction is rolled back (the
episode/file store reverts to its pre-transaction value) and the call returns
an error — but the already-committed metadata update stays. -/
def update_podcast (db : DbFull) (pod_id : Int) (podcast : PodcastNoId)
    (episode_tx_ok : Bool) : Except Unit SyncResult × DbFull :=
  let db1 : DbFull := { db with meta := update_podcast_meta podcast db.meta }
  if episode_tx_ok then
    let p := update_episodes db1.store pod_id podcast.title podcast.episodes
    (.ok p.2, { db1 with store := p.1 })
  else
    (.error (), db1)

/-- Maximal leading run of ASCII digits of a character list, together with the
rest (the greedy semantics of one regex digit group). -/
def take_digits : List Char → List Char × List Char
  | [] => ([], [])
  | c :: cs =>
    if c.isDigit then
      let p := take_digits cs
      (c :: p.1, p.2)
    else ([], c :: cs)

/-- One optional regex group `(?::(\d+))?` applied at the given position: it
participates only when a colon followed by at least one digit is present;
otherwise it matches empty and consumes nothing. -/
def opt_colon_group (l : List Char) : Option (List Char) × List Char :=
  match l with
  | ':' :: rest =>
    let p := take_digits rest
    if p.1.isEmpty then (none, l) else (some p.1, p.2)
  | _ => (none, l)

/-- Leftmost match of `RE_DURATION` = `(\d+)(?::(\d+))?(?::(\d+))?` against a
character list: the match starts at the first digit (everything after the first
group is optional), the first group is the maximal digit run there, and each
optional group participates only if a colon-digits sequence follows.  Returns
the participating capture groups, `none` when the string holds no digit. -/
def re_duration_captures : List Char → Option (List Char × Option (List Char) × Option (List Char))
  | [] => none
  | c :: cs =>
    if c.isDigit then
      let p1 := take_digits (c :: cs)
      let p2 := opt_colon_group p1.2
      let p3 := opt_colon_group p2.2
      some (p1.1, p2.1, p3.1)
    else re_duration_captures cs

/-- Numeric value of a digit string. -/
def digits_to_nat (l : List Char) : Nat :=
  l.foldl (fun a c => a * 10 + (c.toNat - 48)) 0

/-- Mirrors `regex_to_int`: `str::parse::<i32>` on a capture group.  The group
is all digits by construction, so the parse fails exactly on `i32` overflow. -/
def regex_to_int (l : List Char) : Option Int :=
  let n := digits_to_nat l
  if n ≤ 2147483647 then some (n : Int) else none

/-- Parse the list of participating capture groups, failing the whole parse on
the first group that does not convert (mirrors the `for c in
cap.iter().skip(1).flatten()` loop with its early `return None`). -/
def parse_groups : List (List Char) → Option (List Int)
  | [] => some []
  | g :: rest =>
    match regex_to_int g with
    | none => none
    | some v =>
      match parse_groups rest with
      | none => none
      | some vs => some (v :: vs)

/-- Mirrors `duration_to_int`: capture via `RE_DURATION`, collect the
participating groups in order, parse them all (else `None`), then combine
according to how many groups participated (HH:MM:SS, MM:SS, or SS). -/
def duration_to_int (duration : Option String) : Option Int :=
  match duration with
  | none => none
  | some dur =>
    match re_duration_captures dur.data with
    | none => none
    | some cap =>
      let groups := [some cap.1, cap.2.1, cap.2.2].filterMap id
      match parse_groups groups with
      | none => none
      | some times =>
        match times with
        | [t1, t2, t3] => some (t1 * 60 * 60 + t2 * 60 + t3)
        | [t1, t2] => some (t1 * 60 + t2)
        | [t1] => some t1
        | _ => none

/-- SQLite INTEGER-affinity conversion of a bound text value: the text is
converted to an integer only when it is, in full, a well-formed integer
literal; otherwise the text stays text and compares unequal to every integer
in `episode_id = ?`. -/
def sqlite_text_as_int (s : String) : Option Int :=
  match s.data with
  | [] => none
  | '-' :: rest =>
    if !rest.isEmpty && rest.all (·.isDigit) then some (-(digits_to_nat rest : Int)) else none
  | l =>
    if l.all (·.isDigit) then some ((digits_to_nat l : Int)) else none

/-- Mirrors `Database::remove_files`: the episode ids are joined into ONE
comma-separated string which is bound as a single parameter of
`DELETE FROM files WHERE episode_id = (?);` — so a row is deleted only when
its `episode_id` equals the whole joined text under SQLite numeric affinity. -/
def remove_files (files : List FileRow) (episode_ids : List Int) : List FileRow :=
  let episodes := String.intercalate ", " (episode_ids.map toString)
  match sqlite_text_as_int episodes with
  | some v => files.filter fun f => !(f.episode_id == v)
  | none => files

/-- Outcome of the fetch loop of `get_feed_data`, with the number of transport
attempts performed.  `underflow` marks the `max_retries -= 1` executed with
`max_retries == 0`: a `usize` underflow (panic in debug builds, wrap-around to
`usize::MAX` remaining retries in release builds). -/
inductive FetchOutcome where
  | success (attempts : Nat)
  | noResponse (attempts : Nat)
  | underflow (attempts : Nat)
deriving DecidableEq

/-- The retry loop of `get_feed_data`: attempt the transport; on success break
with the response; on failure decrement `max_retries` FIRST and only then test
it against zero.  `ok n` tells whether the transport call of attempt index `n`
(0-based) succeeds. -/
def fetch_loop (ok : Nat → Bool) (max_retries : Nat) (attempt : Nat) : FetchOutcome :=
  if ok attempt then .success (attempt + 1)
  else
    match max_retries with
    | 0 => .underflow (attempt + 1)
    | m + 1 => if m = 0 then .noResponse (attempt + 1) else fetch_loop ok m (attempt + 1)

/-- Mirrors the retry behaviour of `get_feed_data(url, max_retries)` against a
transport described by `ok`. -/
def get_feed_data (ok : Nat → Bool) (max_retries : Nat) : FetchOutcome :=
  fetch_loop ok max_retries 0

/-- Playback/visibility frame of an episode row: same id, and the `played`,
`hidden` and `last_position` columns untouched. -/
def preserves_playback (a b : Episode) : Prop :=
  b.id = a.id ∧ b.played = a.played ∧ b.hidden = a.hidden ∧ b.last_position = a.last_position

instance (a b : Episode) : Decidable (preserves_playback a b) := by
  unfold preserves_playback
  infer_instance

/-- Example input: a feed episode with a guid but no publish date. -/
def epDateless : EpisodeNoId :=
  { title := "t", url := "u", guid := "g", description := "", pubdate := none,
    duration := none, image_url := none }

/-- Example input: an empty episode/file store. -/
def store0 : StoreState := { episodes := [], files := [], nextId := 1 }

/-- Example input: the more recent of two stored episodes agreeing on title and
url with the incoming `epNoGuid`. -/
def eRecent : Episode :=
  { id := 1, pod_id := 1, title := "t", url := "u", guid := "", description := "",
    pubdate := some 100, duration := none, played := false, hidden := false,
    last_position := 0, image_url := none }

/-- Example input: the older of the two stored episodes. -/
def eOlder : Episode := { eRecent with id := 2, pubdate := some 50 }

/-- Example input: an incoming episode without guid or publish date matching
both stored episodes on title and url. -/
def epNoGuid : EpisodeNoId :=
  { title := "t", url := "u", guid := "", description := "", pubdate := none,
    duration := none, image_url := none }

/-- Example input: a store holding the two episodes (stored order is not the
publish-date order, so `get_episodes` has to sort). -/
def storeTwo : StoreState := { episodes := [eOlder, eRecent], files := [], nextId := 3 }

/-- Example input: a stored episode whose guid matches `epGuidHit` while title,
url and publish date all differ. -/
def eGuidOld : Episode :=
  { id := 7, pod_id := 1, title := "old title", url := "old url", guid := "shared-guid",
    description := "d", pubdate := some 11, duration := some 9, played := false,
    hidden := false, last_position := 0, image_url := none }

/-- Example input: an incoming episode carrying the shared guid but different
title, url and publish date. -/
def epGuidHit : EpisodeNoId :=
  { title := "new title", url := "new url", guid := "shared-guid", description := "d2",
    pubdate := some 99, duration := some 9, image_url := none }

/-- Example input: podcast metadata row before an update. -/
def metaOld : PodcastMeta :=
  { title := "Old", url := "u", description := none, author := none, explicit := none,
    last_checked := 0 }

/-- Example input: database with the old metadata row and an empty store. -/
def dbOld : DbFull := { meta := metaOld, store := store0 }

/-- Example input: incoming podcast whose title differs from the stored row. -/
def podNew : PodcastNoId :=
  { title := "New", url := "u", description := none, author := none, explicit := none,
    last_checked := 5, episodes := [] }

/-- Example input: a stored episode with playback state set, for the frame
witness. -/
def ePlayed : Episode :=
  { id := 1, pod_id := 1, title := "t", url := "u", guid := "g", description := "",
    pubdate := some 10, duration := some 3, played := true, hidden := true,
    last_position := 33, image_url := none }

/-- Example input: store holding `ePlayed` and its local-file association. -/
def storePlayed : StoreState :=
  { episodes := [ePlayed], files := [{ episode_id := 1, path := "p" }], nextId := 2 }

/-- Example input: an incoming episode matching `ePlayed` by guid with a changed
title, triggering the in-place update path. -/
def epRetitled : EpisodeNoId :=
  { title := "t2", url := "u", guid := "g", description := "", pubdate := some 10,
    duration := some 3, image_url := none }

/-- Example input: a stored episode agreeing with `epTitleOnly` on the title
only (urls differ, the incoming episode has no publish date). -/
def eTitleOnly : Episode :=
  { id := 9, pod_id := 1, title := "s", url := "a", guid := "", description := "",
    pubdate := some 4, duration := none, played := false, hidden := false,
    last_position := 0, image_url := none }

/-- Example input: an incoming guid-less episode sharing only the title with
`eTitleOnly`. -/
def epTitleOnly : EpisodeNoId :=
  { title := "s", url := "b", guid := "", description := "", pubdate := none,
    duration := none, image_url := none }

/-- Example input: a stored episode without a publish date. -/
def eDateless : Episode :=
  { id := 4, pod_id := 1, title := "s", url := "a", guid := "", description := "",
    pubdate := none, duration := none, played := false, hidden := false,
    last_position := 0, image_url := none }

/-- Example input: an incoming dateless episode agreeing with `eDateless` on
title and url. -/
def epDatelessMatch : EpisodeNoId :=
  { title := "s", url := "a", guid := "", description := "", pubdate := none,
    duration := none, image_url := none }

/-- Claim C1 (code bug): reconciliation is NOT idempotent for episodes without a
publish date.  Committing the feed `[epDateless]` into an empty store and then
running `update_episodes` again with the identical incoming list produces a
`SyncResult` whose `updated` list is non-empty: the matched episode's title,
url, guid, description, duration and publish timestamp are all unchanged, yet
`check_for_updates` still reports a difference because its `pd_match` flag
stays `false` when both pubdates are absent.  The claim (and the spec's
idempotence property) requires `updated = []` here. -/
theorem second_sync_updates_dateless_episode :
    (update_episodes (update_episodes store0 1 "Pod" [epDateless]).1 1 "Pod"
        [epDateless]).2 = { added := [], updated := [1] } ∧
    check_for_updates (new_row 1 1 epDateless) epDateless = true := by
  decide

/-- Claim C7 (code bug): `duration_to_int` behaves as claimed on `"1:02:03"`,
`"02:03"`, `"45"` and `"abc"`, but on `"1:ab:03"` it returns `some 1` instead
of the claimed `None`: the regex `(\d+)(?::(\d+))?(?::(\d+))?` matches just the
leading `"1"` (the optional groups do not participate at `":ab"`), so a partial
duration IS recorded. -/
theorem duration_partial_parse_accepted :
    duration_to_int (some "1:02:03") = some 3723 ∧
    duration_to_int (some "02:03") = some 123 ∧
    duration_to_int (some "45") = some 45 ∧
    duration_to_int (some "abc") = none ∧
    duration_to_int (some "1:ab:03") = some 1 := by
  decide

/-- Claim C8 (confirmed): against an always-failing transport, `get_feed_data`
with `max_retries = 3` performs exactly 3 attempts and returns the
no-response error — it neither succeeds nor makes a fourth attempt. -/
theorem retry_exhaustion_three_attempts :
    get_feed_data (fun _ => false) 3 = .noResponse 3 := by
  decide

/-- Claim C9 (code bug): `remove_files` joins the episode ids into one
comma-separated string bound as a single parameter, so for the id list `[1, 2]`
the bound text `"1, 2"` is not a well-formed integer and no `files` row is
deleted — the associations of episodes 1 and 2 both survive, contradicting the
claim; a singleton list still works because `"1"` converts under SQLite
INTEGER affinity. -/
theorem remove_files_multi_id_noop :
    remove_files [{ episode_id := 1, path := "a" }, { episode_id := 2, path := "b" }] [1, 2] =
      [{ episode_id := 1, path := "a" }, { episode_id := 2, path := "b" }] ∧
    remove_files [{ episode_id := 1, path := "a" }, { episode_id := 2, path := "b" }] [1] =
      [{ episode_id := 2, path := "b" }] := by
  decide

/-- Claim C2 counterexample: with a failing episode transaction,
`update_podcast` returns an error yet the database state differs from the
state before the call — the podcast metadata row already carries the new
title, because the metadata UPDATE ran outside the episode transaction. -/
theorem update_podcast_partial_commit_cex :
    (update_podcast dbOld 1 podNew false).1 = .error () ∧
    (update_podcast dbOld 1 podNew false).2 ≠ dbOld ∧
    (update_podcast dbOld 1 podNew false).2.meta.title = "New" ∧
    dbOld.meta.title = "Old" := by
  refine ⟨rfl, by decide, rfl, rfl⟩

/-- Claim C2 (corrected): only the episode inserts/updates of `update_podcast`
run inside a storage transaction; the podcast metadata update executes
separately on `self.conn` before it.  Hence a failure inside the episode
transaction rolls back every episode/file change (the store is exactly the
pre-call store) while the metadata update stays applied, and on success the
episode work is applied on top of the updated metadata. -/
theorem update_podcast_tx_boundary (db : DbFull) (pod_id : Int) (podcast : PodcastNoId) :
    (update_podcast db pod_id podcast false).1 = .error () ∧
    (update_podcast db pod_id podcast false).2.store = db.store ∧
    (update_podcast db pod_id podcast false).2.meta = update_podcast_meta podcast db.meta ∧
    (update_podcast db pod_id podcast true).2.store =
      (update_episodes db.store pod_id podcast.title podcast.episodes).1 ∧
    (update_podcast db pod_id podcast true).2.meta = update_podcast_meta podcast db.meta := by
  refine ⟨rfl, rfl, rfl, rfl, rfl⟩

/-- Claim C5 counterexample: both stored episodes reach the fallback score
threshold for the incoming `epNoGuid`; `get_episodes` hands them over
most-recent-first as `[eRecent, eOlder]`, yet the episode matched (and
updated) is `eOlder` — id 2, publish date 50 — not the first of the
most-recent-first scan as the claim states. -/
theorem fallback_scan_order_cex :
    get_episodes storeTwo 1 true = [eRecent, eOlder] ∧
    2 ≤ fallback_score eRecent epNoGuid ∧
    2 ≤ fallback_score eOlder epNoGuid ∧
    eRecent.pubdate = some 100 ∧ eOlder.pubdate = some 50 ∧
    match_episode [eRecent, eOlder] epNoGuid =
      .matched eOlder (check_for_updates eOlder epNoGuid) ∧
    (update_episodes storeTwo 1 "Pod" [epNoGuid]).2.updated = [eOlder.id] ∧
    eOlder.id ≠ eRecent.id := by
  decide

/-- Helper: the retry loop against an always-failing transport uses up its
remaining budget one attempt at a time. -/
theorem fetch_loop_always_fail (n : Nat) :
    ∀ attempt : Nat,
      fetch_loop (fun _ => false) (n + 1) attempt = .noResponse (attempt + (n + 1)) := by
  induction n with
  | zero => intro attempt; rfl
  | succ k ih =>
    intro attempt
    rw [fetch_loop]
    simp only [Bool.false_eq_true, if_false, Nat.succ_ne_zero, ih (attempt + 1)]
    congr 1
    omega

/-- Claim C10 (confirmed): the retry counter is decremented before the zero
test, so `get_feed_data` with `max_retries = 0` against a failing transport
underflows the unsigned counter on the very first failure (after 1 attempt);
for every `max_retries ≥ 1` the documented exhaustion behaviour holds:
exactly `max_retries` attempts, then the no-response error. -/
theorem retry_zero_underflow :
    get_feed_data (fun _ => false) 0 = .underflow 1 ∧
    ∀ max_retries : Nat, 1 ≤ max_retries →
      get_feed_data (fun _ => false) max_retries = .noResponse max_retries := by
  refine ⟨rfl, ?_⟩
  intro mr hmr
  obtain ⟨k, rfl⟩ : ∃ k, mr = k + 1 := ⟨mr - 1, by omega⟩
  have h := fetch_loop_always_fail k 0
  simpa [get_feed_data] using h

/-- Witness for C10: the general part applied at `max_retries = 2`. -/
theorem retry_zero_underflow_witness :
    get_feed_data (fun _ => false) 2 = .noResponse 2 :=
  retry_zero_underflow.2 2 (by decide)

/-- Helper: one `old_ep_map` insertion step yields either the inserted episode
(whose guid then equals the key) or the previous entry. -/
theorem guid_map_insert_some (g : String) (e : Episode) (acc : Option Episode) (x : Episode)
    (h : guid_map_insert g e acc = some x) :
    (x = e ∧ x.guid = g) ∨ acc = some x := by
  unfold guid_map_insert at h
  split at h
  · exact Or.inr h
  · split at h
    next hg =>
      injection h with h
      exact Or.inl ⟨h.symm, h ▸ hg⟩
    next => exact Or.inr h

/-- Helper: a successful map lookup returns an episode from the list whose guid
equals the key (or the seed accumulator). -/
theorem guid_lookup_go_some (g : String) :
    ∀ (l : List Episode) (acc : Option Episode) (x : Episode),
      guid_lookup_go g l acc = some x → (x ∈ l ∧ x.guid = g) ∨ acc = some x := by
  intro l
  induction l with
  | nil => intro acc x h; exact Or.inr h
  | cons a rest ih =>
    intro acc x h
    rcases ih (guid_map_insert g a acc) x h with hin | hacc
    · exact Or.inl ⟨List.mem_cons_of_mem _ hin.1, hin.2⟩
    · rcases guid_map_insert_some g a acc x hacc with ⟨rfl, hg⟩ | h2
      · exact Or.inl ⟨List.mem_cons_self _ _, hg⟩
      · exact Or.inr h2

/-- Helper: folding more insertions over a present entry keeps the lookup
successful. -/
theorem guid_lookup_go_isSome_acc (g : String) :
    ∀ (l : List Episode) (acc : Option Episode), acc.isSome → (guid_lookup_go g l acc).isSome := by
  intro l
  induction l with
  | nil => intro acc h; exact h
  | cons a rest ih =>
    intro acc h
    apply ih
    unfold guid_map_insert
    split
    · exact h
    · split
      · rfl
      · exact h

/-- Helper: if some episode of the list carries the (non-empty) key as guid,
the map lookup succeeds. -/
theorem guid_lookup_go_isSome (g : String) (hg : g ≠ "") :
    ∀ (l : List Episode) (acc : Option Episode),
      (∃ e ∈ l, e.guid = g) → (guid_lookup_go g l acc).isSome := by
  intro l
  induction l with
  | nil => rintro acc ⟨e, he, -⟩; cases he
  | cons a rest ih =>
    rintro acc ⟨e, he, hge⟩
    rcases List.mem_cons.mp he with rfl | hmem
    · have hsome : (guid_map_insert g e acc).isSome := by
        unfold guid_map_insert
        rw [if_neg (by rw [hge]; exact hg), if_pos hge]
        rfl
      exact guid_lookup_go_isSome_acc g rest _ hsome
    · show (guid_lookup_go g rest (guid_map_insert g a acc)).isSome
      exact ih _ ⟨e, hmem, hge⟩

/-- Claim C3 (confirmed): guid matching has absolute priority.  For an incoming
episode with a non-empty guid, when some stored episode has an equal guid, the
guid-map lookup succeeds and the matching outcome is exactly that hit (with
its `check_for_updates` flag) — the incoming episode is never treated as new,
whatever its title, url and pubdate, and the fallback scan contributes
nothing. -/
theorem guid_match_priority (old_episodes : List Episode) (new_ep : EpisodeNoId)
    (hg : new_ep.guid ≠ "") (hex : ∃ e ∈ old_episodes, e.guid = new_ep.guid) :
    ∃ e, guid_lookup old_episodes new_ep.guid = some e ∧ e ∈ old_episodes ∧
      e.guid = new_ep.guid ∧
      match_episode old_episodes new_ep = .matched e (check_for_updates e new_ep) := by
  have hs : (guid_lookup old_episodes new_ep.guid).isSome :=
    guid_lookup_go_isSome new_ep.guid hg old_episodes none hex
  obtain ⟨e, he⟩ := Option.isSome_iff_exists.mp hs
  rcases guid_lookup_go_some new_ep.guid old_episodes none e he with ⟨hmem, hguid⟩ | hbad
  · refine ⟨e, he, hmem, hguid, ?_⟩
    unfold match_episode
    rw [if_neg hg, he]
  · cases hbad

/-- Witness for C3: a stored and an incoming episode sharing only the guid
(title, url and pubdate all differ) are matched by the guid phase. -/
theorem guid_match_priority_witness :
    ∃ e, guid_lookup [eGuidOld] epGuidHit.guid = some e ∧ e ∈ [eGuidOld] ∧
      e.guid = epGuidHit.guid ∧
      match_episode [eGuidOld] epGuidHit = .matched e (check_for_updates e epGuidHit) :=
  guid_match_priority [eGuidOld] epGuidHit (by decide) ⟨eGuidOld, by decide, by decide⟩

/-- Helper: the fallback scan returns `none` exactly when no scanned episode
reaches the score threshold of 2. -/
theorem fallback_loop_eq_none (new_ep : EpisodeNoId) :
    ∀ l : List Episode,
      fallback_loop new_ep l = none ↔ ∀ x ∈ l, fallback_score x new_ep < 2 := by
  intro l
  induction l with
  | nil => simp [fallback_loop]
  | cons a rest ih =>
    unfold fallback_loop
    by_cases h : 2 ≤ fallback_score a new_ep
    · rw [if_pos h]
      constructor
      · intro hx; cases hx
      · intro hall
        exact absurd h (by have := hall a (List.mem_cons_self a rest); omega)
    · rw [if_neg h, ih]
      constructor
      · intro hall x hx
        rcases List.mem_cons.mp hx with rfl | hx2
        · omega
        · exact hall x hx2
      · intro hall x hx
        exact hall x (List.mem_cons_of_mem _ hx)

/-- Helper: a fallback hit lies in the scanned list and reaches the score
threshold. -/
theorem fallback_loop_some_mem (new_ep : EpisodeNoId) :
    ∀ (l : List Episode) (e : Episode),
      fallback_loop new_ep l = some e → e ∈ l ∧ 2 ≤ fallback_score e new_ep := by
  intro l
  induction l with
  | nil => intro e h; cases h
  | cons a rest ih =>
    intro e h
    unfold fallback_loop at h
    split at h
    next hs =>
      injection h with h
      subst h
      exact ⟨List.mem_cons_self a rest, hs⟩
    next =>
      obtain ⟨hm, hs⟩ := ih e h
      exact ⟨List.mem_cons_of_mem _ hm, hs⟩

/-- Helper: first-hit characterization of the fallback scan loop — it returns
`some e` exactly when the scanned list splits as `l1 ++ e :: l2` with every
episode of `l1` below the threshold and `e` at or above it (the `break` stops
the scan at the first hit). -/
theorem fallback_loop_eq_some (new_ep : EpisodeNoId) :
    ∀ (l : List Episode) (e : Episode),
      fallback_loop new_ep l = some e ↔
        ∃ l1 l2, l = l1 ++ e :: l2 ∧ (∀ x ∈ l1, fallback_score x new_ep < 2) ∧
          2 ≤ fallback_score e new_ep := by
  intro l
  induction l with
  | nil =>
    intro e
    constructor
    · intro h; cases h
    · rintro ⟨l1, l2, heq, -, -⟩
      cases l1 <;> simp at heq
  | cons a rest ih =>
    intro e
    unfold fallback_loop
    by_cases h : 2 ≤ fallback_score a new_ep
    · rw [if_pos h]
      constructor
      · intro he
        injection he with he
        subst he
        refine ⟨[], rest, rfl, ?_, h⟩
        intro x hx
        cases hx
      · rintro ⟨l1, l2, heq, hall, hge⟩
        cases l1 with
        | nil =>
          injection heq with h1 h2
          rw [h1]
        | cons b l1t =>
          injection heq with h1 h2
          subst h1
          have := hall a (List.mem_cons_self a l1t)
          omega
    · rw [if_neg h, ih e]
      constructor
      · rintro ⟨l1, l2, rfl, hall, hge⟩
        refine ⟨a :: l1, l2, rfl, ?_, hge⟩
        intro x hx
        rcases List.mem_cons.mp hx with rfl | hx2
        · omega
        · exact hall x hx2
      · rintro ⟨l1, l2, heq, hall, hge⟩
        cases l1 with
        | nil =>
          injection heq with h1 h2
          subst h1
          exact absurd hge h
        | cons b l1t =>
          injection heq with h1 h2
          subst h1
          exact ⟨l1t, l2, h2, fun x hx => hall x (List.mem_cons_of_mem _ hx), hge⟩

/-- Claim C5 amended (corrected): when several existing episodes reach the
fallback score threshold of 2, the one matched is the first reached when
scanning the existing episodes in REVERSE of the fetched most-recent-first
order — i.e. oldest-first (publish date ascending) — and the scan stops at
that first hit: everything scanned before the hit scored below 2. -/
theorem fallback_scan_oldest_first (old_episodes : List Episode) (new_ep : EpisodeNoId)
    (e : Episode) :
    fallback_match old_episodes new_ep = some e ↔
      ∃ l1 l2, old_episodes.reverse = l1 ++ e :: l2 ∧
        (∀ x ∈ l1, fallback_score x new_ep < 2) ∧ 2 ≤ fallback_score e new_ep :=
  fallback_loop_eq_some new_ep old_episodes.reverse e

/-- Claim C4 (confirmed): the fallback threshold is 2 of the 3 checks, with the
pubdate check counting only when both sides carry a date.  Conjuncts: a
guid-less incoming episode is new exactly when every existing episode scores
below 2; agreement on title and url alone already reaches the threshold
(pubdates absent or different change nothing); agreement on the title only,
with urls different and no pubdate contribution, scores 1 (below the
threshold); and two dateless episodes agreeing on title and url score
exactly 2. -/
theorem fallback_threshold_two :
    (∀ (old_episodes : List Episode) (new_ep : EpisodeNoId), new_ep.guid = "" →
      (match_episode old_episodes new_ep = .new ↔
        ∀ e ∈ old_episodes, fallback_score e new_ep < 2)) ∧
    (∀ (old_ep : Episode) (new_ep : EpisodeNoId),
      new_ep.title = old_ep.title → new_ep.url = old_ep.url →
      2 ≤ fallback_score old_ep new_ep) ∧
    (∀ (old_ep : Episode) (new_ep : EpisodeNoId),
      new_ep.title = old_ep.title → new_ep.url ≠ old_ep.url →
      pd_score old_ep new_ep = 0 → fallback_score old_ep new_ep = 1) ∧
    (∀ (old_ep : Episode) (new_ep : EpisodeNoId),
      new_ep.pubdate = none → old_ep.pubdate = none →
      new_ep.title = old_ep.title → new_ep.url = old_ep.url →
      fallback_score old_ep new_ep = 2) := by
  refine ⟨?_, ?_, ?_, ?_⟩
  · intro olds new_ep hg
    unfold match_episode
    rw [if_pos hg]
    cases hfb : fallback_match olds new_ep with
    | none =>
      simp only [true_iff]
      intro x hx
      exact (fallback_loop_eq_none new_ep olds.reverse).mp hfb x (List.mem_reverse.mpr hx)
    | some o =>
      simp only [reduceCtorEq, false_iff, not_forall]
      obtain ⟨hm, hs⟩ := fallback_loop_some_mem new_ep olds.reverse o hfb
      refine ⟨o, List.mem_reverse.mp hm, by omega⟩
  · intro old_ep new_ep ht hu
    unfold fallback_score
    rw [if_pos ht, if_pos hu]
    omega
  · intro old_ep new_ep ht hu hpd
    unfold fallback_score
    rw [if_pos ht, if_neg hu, hpd]
  · intro old_ep new_ep hn ho ht hu
    have hpd : pd_score old_ep new_ep = 0 := by
      unfold pd_score
      rw [hn]
    unfold fallback_score
    rw [if_pos ht, if_pos hu, hpd]

/-- Witness for C4: concrete instances of all four conjuncts — a title-only
agreement yields a fresh insert, title+url agreement reaches the threshold,
the title-only score is 1, and the dateless title+url score is 2. -/
theorem fallback_threshold_two_witness :
    match_episode [eTitleOnly] epTitleOnly = .new ∧
    2 ≤ fallback_score eTitleOnly { epTitleOnly with url := "a" } ∧
    fallback_score eTitleOnly epTitleOnly = 1 ∧
    fallback_score eDateless epDatelessMatch = 2 := by
  refine ⟨?_, ?_, ?_, ?_⟩
  · exact (fallback_threshold_two.1 [eTitleOnly] epTitleOnly (by decide)).mpr (by decide)
  · exact fallback_threshold_two.2.1 eTitleOnly { epTitleOnly with url := "a" }
      (by decide) (by decide)
  · exact fallback_threshold_two.2.2.1 eTitleOnly epTitleOnly
      (by decide) (by decide) (by decide)
  · exact fallback_threshold_two.2.2.2 eDateless epDatelessMatch
      (by decide) (by decide) (by decide) (by decide)

/-- Helper: the playback frame relation is reflexive. -/
theorem preserves_playback_refl (a : Episode) : preserves_playback a a :=
  ⟨rfl, rfl, rfl, rfl⟩

/-- Helper: the playback frame relation is transitive. -/
theorem preserves_playback_trans {a b c : Episode}
    (h1 : preserves_playback a b) (h2 : preserves_playback b c) :
    preserves_playback a c := by
  obtain ⟨i1, p1, q1, r1⟩ := h1
  obtain ⟨i2, p2, q2, r2⟩ := h2
  exact ⟨i2.trans i1, p2.trans p1, q2.trans q1, r2.trans r1⟩

/-- Helper: one reconciliation step never touches the `files` table and maps
every pre-existing episode row to a row with the same id and unchanged
`played`, `hidden` and `last_position` columns. -/
theorem update_one_frame (pid : Int) (ptitle : String) (olds : List Episode)
    (new_ep : EpisodeNoId) (st : StoreState) (acc : SyncResult) :
    (update_one pid ptitle olds new_ep st acc).1.files = st.files ∧
    ∀ e ∈ st.episodes,
      ∃ e', e' ∈ (update_one pid ptitle olds new_ep st acc).1.episodes ∧
        preserves_playback e e' := by
  unfold update_one
  cases hm : match_episode olds new_ep with
  | matched old_ep upd =>
    cases upd with
    | false => exact ⟨rfl, fun e he => ⟨e, he, preserves_playback_refl e⟩⟩
    | true =>
      refine ⟨rfl, ?_⟩
      intro e he
      refine ⟨if e.id == old_ep.id then apply_update new_ep e else e,
        List.mem_map_of_mem _ he, ?_⟩
      by_cases hid : (e.id == old_ep.id) = true
      · rw [if_pos hid]
        exact ⟨rfl, rfl, rfl, rfl⟩
      · rw [if_neg hid]
        exact preserves_playback_refl e
  | new =>
    exact ⟨rfl, fun e he => ⟨e, List.mem_append_left _ he, preserves_playback_refl e⟩⟩

/-- Helper: the whole reconciliation loop preserves the `files` table and the
playback frame of every pre-existing episode row. -/
theorem update_loop_frame (pid : Int) (ptitle : String) (olds : List Episode) :
    ∀ (eps : List EpisodeNoId) (st : StoreState) (acc : SyncResult),
      (update_loop pid ptitle olds eps st acc).1.files = st.files ∧
      ∀ e ∈ st.episodes,
        ∃ e', e' ∈ (update_loop pid ptitle olds eps st acc).1.episodes ∧
          preserves_playback e e' := by
  intro eps
  induction eps with
  | nil => intro st acc; exact ⟨rfl, fun e he => ⟨e, he, preserves_playback_refl e⟩⟩
  | cons n rest ih =>
    intro st acc
    have h1 := update_one_frame pid ptitle olds n st acc
    have h2 := ih (update_one pid ptitle olds n st acc).1 (update_one pid ptitle olds n st acc).2
    refine ⟨h2.1.trans h1.1, ?_⟩
    intro e he
    obtain ⟨e1, he1, hp1⟩ := h1.2 e he
    obtain ⟨e2, he2, hp2⟩ := h2.2 e1 he1
    exact ⟨e2, he2, preserves_playback_trans hp1 hp2⟩

/-- Claim C6 (confirmed): a sync-driven update rewrites only the
title/url/guid/description/pubdate/duration columns.  After `update_episodes`
the `files` table (local-file associations) is exactly as before, and every
episode row present before still has a row with its id whose `played`,
`hidden` and `last_position` columns are unchanged. -/
theorem sync_update_frame (st : StoreState) (podcast_id : Int) (podcast_title : String)
    (episodes : List EpisodeNoId) :
    (update_episodes st podcast_id podcast_title episodes).1.files = st.files ∧
    ∀ e ∈ st.episodes,
      ∃ e', e' ∈ (update_episodes st podcast_id podcast_title episodes).1.episodes ∧
        preserves_playback e e' :=
  update_loop_frame podcast_id podcast_title (get_episodes st podcast_id true)
    episodes.reverse st { added := [], updated := [] }

/-- Witness for C6: an episode with playback state set (`played`, `hidden`,
`last_position = 33`) and a local file is matched by guid and retitled; the
files table survives, the playback frame of the stored row survives, and the
update really ran (its id is in `updated`). -/
theorem sync_update_frame_witness :
    (update_episodes storePlayed 1 "Pod" [epRetitled]).1.files = storePlayed.files ∧
    (∃ e', e' ∈ (update_episodes storePlayed 1 "Pod" [epRetitled]).1.episodes ∧
      preserves_playback ePlayed e') ∧
    (update_episodes storePlayed 1 "Pod" [epRetitled]).2.updated = [1] :=
  ⟨(sync_update_frame storePlayed 1 "Pod" [epRetitled]).1,
   (sync_update_frame storePlayed 1 "Pod" [epRetitled]).2 ePlayed (by decide),
   by decide⟩

end Termusic
